import Mathlib

/-!
Verification of `claude_snip_helper.py`, a clipboard-to-file helper:
a background poller watches the Windows clipboard for new image data
(CF_DIB), and a global mouse hook saves the remembered image to disk
when a left click lands in (or on top of) a VS Code window.

The Python source is shallowly embedded below: module-level globals
become explicit state records, OS collaborators (clipboard, window
system, process introspection, persistence sink) become explicit
inputs, exceptions become `Except`, and `time.time()` (a float of
seconds) is modelled as a rational number of seconds.
-/

namespace SnipHelper

/-- Constant `CLICK_SUPPRESS_MS = 200` (source line 29), in milliseconds. -/
def CLICK_SUPPRESS_MS : ℚ := 200

/-- Allowlist `VS_CODE_EXE` (source line 32): the fixed set of
executable names, as a list. -/
def VS_CODE_EXE : List String := ["code.exe", "code - insiders.exe", "vscode.exe"]

/-- The snapshot triple held in the module globals `last_snip_ts`,
`last_snip_seq`, `last_snip_bytes` (source lines 35-37). Payload bytes
are modelled as `List Nat`; the timestamp is seconds as a rational. -/
structure Snapshot where
  last_snip_ts : ℚ
  last_snip_seq : Nat
  last_snip_bytes : List Nat
deriving DecidableEq, Repr

/-- Initial globals: `last_snip_ts = 0.0`, `last_snip_seq = 0`,
`last_snip_bytes = b""` (source lines 35-37). -/
def initialSnapshot : Snapshot := ⟨0, 0, []⟩

/-! ## Window-ownership classifier (source lines 96-116)

The external collaborators are modelled as a record of total query
functions. A window handle of `0` models the "no window" result of
`GetForegroundWindow` / `WindowFromPoint` (Python: `if not hwnd`).
`processName` models `psutil.Process(pid).name()`: `Except.error`
is a raised `psutil.Error` (process gone, access denied). -/

/-- External window-system and process-introspection collaborators. -/
structure WindowSystem where
  foregroundWindow : Nat
  windowFromPoint : Int → Int → Nat
  windowPid : Nat → Nat
  processName : Nat → Except Unit String

/-- Python's `str.lower()` on an executable name (ASCII case folding,
character by character). -/
def str_lower (s : String) : String := ⟨s.data.map Char.toLower⟩

/-- Function `_pid_is_vscode` (source lines 96-100): look up the process name;
a raised `psutil.Error` is caught and yields `False`; otherwise the
lowercased name is tested against the allowlist. -/
def pid_is_vscode (name : Except Unit String) : Bool :=
  match name with
  | .ok n => VS_CODE_EXE.contains (str_lower n)
  | .error _ => false

/-- Function `_foreground_is_vscode` (source lines 103-108): resolve the
foreground window handle; `0` (falsy) yields `False`; otherwise resolve
its pid and delegate to `_pid_is_vscode`. -/
def foreground_is_vscode (ws : WindowSystem) : Bool :=
  if ws.foregroundWindow = 0 then false
  else pid_is_vscode (ws.processName (ws.windowPid ws.foregroundWindow))

/-- Function `_window_at_point_is_vscode` (source lines 111-116): resolve the
window under the pointer; `0` yields `False`; otherwise resolve its pid
and delegate to `_pid_is_vscode`. -/
def window_at_point_is_vscode (ws : WindowSystem) (x y : Int) : Bool :=
  if ws.windowFromPoint x y = 0 then false
  else pid_is_vscode (ws.processName (ws.windowPid (ws.windowFromPoint x y)))

/-! ## Clipboard poller (source lines 121-135)

One iteration of the `while True` body of `_clip_monitor`. The
clipboard collaborator is the environment: the current sequence number
(`_seq()`), whether CF_DIB is available (`_dib_available()`), and the
outcome of `_read_dib()` (`none` models a swallowed exception returning
`None`). Python's `if dib:` is falsy for both `None` and `b""`. -/

/-- The clipboard state as seen by one poller iteration. -/
structure ClipEnv where
  seq : Nat
  dibAvailable : Bool
  readResult : Option (List Nat)

/-- The poller's state: the locally remembered token `seq_prev` plus
the shared snapshot globals. -/
structure PollerState where
  seq_prev : Nat
  store : Snapshot
deriving DecidableEq, Repr

/-- One iteration of `_clip_monitor`'s loop body (source lines 126-134):
if the sequence number changed, remember it immediately; then, if CF_DIB
is available and `_read_dib()` returned truthy bytes, publish
`{bytes, seq, now}` into the snapshot globals. -/
def clip_monitor_step (env : ClipEnv) (now : ℚ) (st : PollerState) : PollerState :=
  if env.seq ≠ st.seq_prev then
    if env.dibAvailable then
      match env.readResult with
      | some dib =>
          if dib ≠ [] then
            { seq_prev := env.seq,
              store := { last_snip_ts := now, last_snip_seq := env.seq,
                         last_snip_bytes := dib } }
          else { st with seq_prev := env.seq }
      | none => { st with seq_prev := env.seq }
    else { st with seq_prev := env.seq }
  else st

/-- Whether an iteration of `_clip_monitor` reaches the `_read_dib()`
call (source line 130): only when the sequence changed and CF_DIB is
available. -/
def clip_monitor_attempts_read (env : ClipEnv) (st : PollerState) : Bool :=
  decide (env.seq ≠ st.seq_prev) && env.dibAvailable

/-! ## Click handler (source lines 140-163)

`_click_handler` is a pure decision function of the delivered event,
the collaborators queried during the call, and the snapshot globals.
`save_image` models the `_save_image` call (source lines 87-91), whose
Pillow decode/write can raise: `Except.error` is an uncaught exception,
which — since `_click_handler` has no `try`/`except` — propagates out
of the handler, so the handler's own result type is `Except`. -/

/-- The event and environment of one `_click_handler` invocation. -/
structure ClickEnv where
  isButtonEvent : Bool
  eventType : String
  button : String
  pos : Int × Int
  ws : WindowSystem
  now : ℚ
  clipSeq : Nat
  dibAvailable : Bool
  save_image : List Nat → Except String String

/-- The possible non-exceptional outcomes of `_click_handler`: each
`return` statement, plus the successful save path. -/
inductive ClickResult where
  | ignored
  | rejectedScope
  | rejectedSuppression
  | rejectedFreshness
  | saved (path : String)
deriving DecidableEq, Repr

/-- Function `_click_handler` (source lines 140-163): ignore non-button events
and anything but a left-button down; reject unless the foreground
window or the window under the pointer is VS Code; reject clicks within
`CLICK_SUPPRESS_MS` of the snapshot's capture time; reject when the
clipboard's current sequence number differs from the remembered one or
CF_DIB is gone; otherwise save the remembered bytes (an exception from
the save propagates uncaught). -/
def click_handler (env : ClickEnv) (snap : Snapshot) : Except String ClickResult :=
  if ¬ env.isButtonEvent then .ok .ignored
  else if env.eventType ≠ "down" ∨ env.button ≠ "left" then .ok .ignored
  else if ¬ (foreground_is_vscode env.ws = true ∨
             window_at_point_is_vscode env.ws env.pos.1 env.pos.2 = true) then
    .ok .rejectedScope
  else if (env.now - snap.last_snip_ts) * 1000 ≤ CLICK_SUPPRESS_MS then
    .ok .rejectedSuppression
  else if env.clipSeq ≠ snap.last_snip_seq ∨ env.dibAvailable = false then
    .ok .rejectedFreshness
  else
    match env.save_image snap.last_snip_bytes with
    | .ok path => .ok (.saved path)
    | .error e => .error e

/-! ## Single-instance lock (source lines 42-64)

The global `lock_socket` is `Option Nat` (a socket handle or `None`).
`_release_lock` closes the socket if one is held and clears the global;
the boolean in the result records whether `close()` was called. -/

/-- Function `_release_lock` (source lines 60-64): result is the pair
of the new `lock_socket` and whether `close()` was called. -/
def release_lock (lock_socket : Option Nat) : Option Nat × Bool :=
  match lock_socket with
  | some _ => (none, true)
  | none => (none, false)

/-! ## Process startup (source lines 28-33 and 167-179)

Module import evaluates line 31, `SAVE_DIR.mkdir(parents=True,
exist_ok=True)`, before `main()` ever runs. `main` then checks the
platform, tries the lock, and either exits or starts the poller thread
and the mouse hook. Observable side effects are recorded as a trace. -/

/-- Observable side effects of importing and starting the program. -/
inductive Effect where
  | mkdirSaveDir
  | printMsg (s : String)
  | exitProcess (code : Nat)
  | acquireLockAttempt
  | startPollerThread
  | hookMouse
deriving DecidableEq, Repr

/-- Side effects of module import (source line 31): the save directory
is created unconditionally, before `main` runs. -/
def module_import_effects : List Effect := [.mkdirSaveDir]

/-- Side effects of `main` up to entering the wait loop (source lines
167-179), as a function of the platform check and whether
`_acquire_lock()` succeeds. -/
def main_effects (platform_win32 : Bool) (lock_acquired : Bool) : List Effect :=
  if ¬ platform_win32 then
    [.printMsg "Windows only.", .exitProcess 1]
  else if ¬ lock_acquired then
    [.acquireLockAttempt,
     .printMsg "🚫 Another instance is already running. Shutting down.",
     .exitProcess 1]
  else
    [.acquireLockAttempt,
     .printMsg "🟢 VS-Code snip helper running – Ctrl-C to quit",
     .startPollerThread, .hookMouse]

/-- Running the program: import-time effects, then `main` (source lines
191-192). -/
def program_startup (platform_win32 : Bool) (lock_acquired : Bool) : List Effect :=
  module_import_effects ++ main_effects platform_win32 lock_acquired

/-- First exit status appearing in an effect trace, if any. -/
def exit_code (l : List Effect) : Option Nat :=
  l.findSome? fun e => match e with | .exitProcess c => some c | _ => none

/-! ## Interleaving of the poller's writes with the handler's reads

The snapshot "triple" lives in three separate module globals with no
lock around them. The poller publishes with three separate assignments,
in source order `last_snip_bytes` (line 132), `last_snip_seq` (line
133), `last_snip_ts` (line 134); the click handler reads `last_snip_ts`
(line 154), then `last_snip_seq` (line 158), then `last_snip_bytes`
(line 161). Under CPython each single assignment/read of a global is
atomic, but the hook thread may run between them, so an execution is an
arbitrary interleaving of the three writes with the three reads. -/

/-- The six atomic global accesses: the poller's three assignments and
the handler's three reads, each of one field. -/
inductive Action where
  | wBytes | wSeq | wTs | rTs | rSeq | rBytes
deriving DecidableEq, Repr

/-- Whether an action is one of the poller's writes. -/
def Action.isWrite : Action → Bool
  | .wBytes | .wSeq | .wTs => true
  | _ => false

/-- The poller's publication sequence, in source order (lines 132-134). -/
def writer_actions : List Action := [.wBytes, .wSeq, .wTs]

/-- The handler's read sequence, in source order (lines 154, 158, 161). -/
def reader_actions : List Action := [.rTs, .rSeq, .rBytes]

/-- What the handler has observed so far (each field once read). -/
structure Obs where
  ts : Option ℚ
  seq : Option Nat
  bytes : Option (List Nat)
deriving DecidableEq, Repr

/-- Effect of one atomic access on the globals and the handler's
observation, where `newT` is the triple the poller is publishing. -/
def run_action (newT : Snapshot) : Snapshot × Obs → Action → Snapshot × Obs
  | (g, o), .wBytes => ({ g with last_snip_bytes := newT.last_snip_bytes }, o)
  | (g, o), .wSeq => ({ g with last_snip_seq := newT.last_snip_seq }, o)
  | (g, o), .wTs => ({ g with last_snip_ts := newT.last_snip_ts }, o)
  | (g, o), .rTs => (g, { o with ts := some g.last_snip_ts })
  | (g, o), .rSeq => (g, { o with seq := some g.last_snip_seq })
  | (g, o), .rBytes => (g, { o with bytes := some g.last_snip_bytes })

/-- Run a schedule of atomic accesses from the old globals, with the
poller publishing `newT`. -/
def run_schedule (old newT : Snapshot) (l : List Action) : Snapshot × Obs :=
  l.foldl (run_action newT) (old, ⟨none, none, none⟩)

/-- A schedule is an interleaving of one poller publication with one
handler read: its writes, in order, are the poller's sequence, and its
reads, in order, are the handler's sequence. -/
def IsInterleaving (l : List Action) : Prop :=
  l.filter Action.isWrite = writer_actions ∧
  l.filter (fun a => ! a.isWrite) = reader_actions

/-- The observation of a full old or a full new triple — the only
outcomes the atomicity invariant permits. -/
def consistent_observation (old newT : Snapshot) (o : Obs) : Prop :=
  o = ⟨some old.last_snip_ts, some old.last_snip_seq, some old.last_snip_bytes⟩ ∨
  o = ⟨some newT.last_snip_ts, some newT.last_snip_seq, some newT.last_snip_bytes⟩

/-- A schedule in which the handler's reads start after the poller has
written the payload but before it has written the token and timestamp. -/
def torn_schedule : List Action := [.wBytes, .rTs, .rSeq, .rBytes, .wSeq, .wTs]

/-! ## Concrete environments used to exercise the definitions -/

/-- A window system whose foreground window (handle 1) belongs to a
process named `Code.exe` (pid 7). -/
def vscode_ws : WindowSystem := ⟨1, fun _ _ => 1, fun _ => 7, fun _ => .ok "Code.exe"⟩

/-- A window system whose windows all belong to `explorer.exe`. -/
def other_ws : WindowSystem := ⟨3, fun _ _ => 3, fun _ => 9, fun _ => .ok "explorer.exe"⟩

/-- A window system in which no window can be resolved and every
process lookup raises. -/
def failing_ws : WindowSystem := ⟨0, fun _ _ => 0, fun _ => 3, fun _ => .error ()⟩

/-- A left-button down click, one second after the epoch, inside a
VS Code window, with live clipboard sequence 5, image data present, and
a sink that saves successfully. -/
def ok_env : ClickEnv :=
  { isButtonEvent := true, eventType := "down", button := "left", pos := (10, 20),
    ws := vscode_ws, now := 1, clipSeq := 5, dibAvailable := true,
    save_image := fun _ => .ok "screenshot.png" }

/-- Same click, but the persistence sink raises on a corrupt payload. -/
def err_env : ClickEnv := { ok_env with save_image := fun _ => .error "corrupt payload" }

/-- Same click, but the live clipboard sequence has moved on to 6. -/
def stale_env : ClickEnv := { ok_env with clipSeq := 6 }

/-- Same click, landing outside any VS Code window. -/
def outside_env : ClickEnv := { ok_env with ws := other_ws }

/-- A snapshot captured at time 0, sequence 5, with a two-byte payload. -/
def ok_snap : Snapshot := ⟨0, 5, [66, 77]⟩

/-! ## Helper lemmas -/

/-- For a left-button down click that passes the scope check, the
handler reduces to its suppression, freshness and save stages. -/
theorem click_handler_after_gates (env : ClickEnv) (snap : Snapshot)
    (hbe : env.isButtonEvent = true)
    (hdown : env.eventType = "down") (hleft : env.button = "left")
    (hscope : foreground_is_vscode env.ws = true ∨
              window_at_point_is_vscode env.ws env.pos.1 env.pos.2 = true) :
    click_handler env snap =
      if (env.now - snap.last_snip_ts) * 1000 ≤ CLICK_SUPPRESS_MS then
        .ok .rejectedSuppression
      else if env.clipSeq ≠ snap.last_snip_seq ∨ env.dibAvailable = false then
        .ok .rejectedFreshness
      else
        match env.save_image snap.last_snip_bytes with
        | .ok path => .ok (.saved path)
        | .error e => .error e := by
  unfold click_handler
  rw [if_neg (by simp [hbe]), if_neg (by simp [hdown, hleft]),
      if_neg (not_not_intro hscope)]

/-- The step function of the poller written out over a destructured
environment. -/
theorem clip_monitor_step_eq (es : Nat) (ed : Bool) (er : Option (List Nat))
    (now : ℚ) (st : PollerState) :
    clip_monitor_step ⟨es, ed, er⟩ now st =
      if es ≠ st.seq_prev then
        if ed then
          match er with
          | some dib =>
              if dib ≠ [] then ⟨es, ⟨now, es, dib⟩⟩ else ⟨es, st.store⟩
          | none => ⟨es, st.store⟩
        else ⟨es, st.store⟩
      else st := rfl

/-- An iteration that observes an unchanged sequence token does nothing
and does not attempt a clipboard read. -/
theorem clip_monitor_step_unchanged (env : ClipEnv) (now : ℚ) (st : PollerState)
    (h : env.seq = st.seq_prev) :
    clip_monitor_step env now st = st ∧
    clip_monitor_attempts_read env st = false := by
  constructor
  · unfold clip_monitor_step
    rw [if_neg (not_not_intro h)]
  · unfold clip_monitor_attempts_read
    simp [h]

/-! ## Claims -/

/-- C1 counterexample: the snapshot globals are written with three
separate assignments and no lock, so there is an interleaving of one
poller publication with one handler read in which the handler observes
the new payload `[2]` paired with the old sequence token `1` and the
old timestamp — a torn triple, refuting atomic publication for all
interleavings. -/
theorem snapshot_publish_torn_read :
    IsInterleaving torn_schedule ∧
    (run_schedule ⟨0, 1, [1]⟩ ⟨5, 2, [2]⟩ torn_schedule).2 =
      ⟨some 0, some 1, some [2]⟩ ∧
    ¬ consistent_observation ⟨0, 1, [1]⟩ ⟨5, 2, [2]⟩
        (run_schedule ⟨0, 1, [1]⟩ ⟨5, 2, [2]⟩ torn_schedule).2 := by
  refine ⟨⟨rfl, rfl⟩, by decide, fun h => ?_⟩
  rcases h with h | h <;> exact absurd h (by decide)

/-- C1 amended: when the handler's three reads are not interleaved with
the poller's three writes — the reads run entirely before or entirely
after the publication — the handler observes a consistent triple, the
full old snapshot or the full new one. -/
theorem snapshot_consistent_when_not_interleaved (old newT : Snapshot)
    (l : List Action)
    (h : l = writer_actions ++ reader_actions ∨
         l = reader_actions ++ writer_actions) :
    consistent_observation old newT (run_schedule old newT l).2 := by
  rcases h with h | h <;> subst h
  · exact Or.inr rfl
  · exact Or.inl rfl

/-- C1 witness: a read running entirely after a concrete publication
observes a consistent triple. -/
theorem snapshot_consistent_when_not_interleaved_witness :
    consistent_observation ⟨0, 1, [1]⟩ ⟨5, 2, [2]⟩
      (run_schedule ⟨0, 1, [1]⟩ ⟨5, 2, [2]⟩ (writer_actions ++ reader_actions)).2 :=
  snapshot_consistent_when_not_interleaved ⟨0, 1, [1]⟩ ⟨5, 2, [2]⟩ _ (Or.inl rfl)

/-- C2: for a left-button down click that passes the scope check, the
suppression gate rejects exactly when `(now - capturedAt) * 1000 ≤ 200`
milliseconds; a click evaluated strictly before `capturedAt + 200` ms
is always rejected; a click evaluated at `capturedAt + 201` ms or later
with the freshness gate passing and the sink succeeding is accepted. -/
theorem click_suppression_window (env : ClickEnv) (snap : Snapshot)
    (hbe : env.isButtonEvent = true)
    (hdown : env.eventType = "down") (hleft : env.button = "left")
    (hscope : foreground_is_vscode env.ws = true ∨
              window_at_point_is_vscode env.ws env.pos.1 env.pos.2 = true) :
    (click_handler env snap = .ok .rejectedSuppression ↔
       (env.now - snap.last_snip_ts) * 1000 ≤ CLICK_SUPPRESS_MS) ∧
    ((env.now - snap.last_snip_ts) * 1000 < 200 →
       click_handler env snap = .ok .rejectedSuppression) ∧
    (201 ≤ (env.now - snap.last_snip_ts) * 1000 →
      env.clipSeq = snap.last_snip_seq → env.dibAvailable = true →
      ∀ p, env.save_image snap.last_snip_bytes = .ok p →
        click_handler env snap = .ok (.saved p)) := by
  have h := click_handler_after_gates env snap hbe hdown hleft hscope
  rw [h]
  refine ⟨⟨?_, fun hs => by rw [if_pos hs]⟩, ?_, ?_⟩
  · intro hres
    by_contra hs
    rw [if_neg hs] at hres
    by_cases hf : env.clipSeq ≠ snap.last_snip_seq ∨ env.dibAvailable = false
    · rw [if_pos hf] at hres
      exact absurd hres (by simp)
    · rw [if_neg hf] at hres
      cases hsv : env.save_image snap.last_snip_bytes <;>
        rw [hsv] at hres <;> simp at hres
  · intro hlt
    rw [if_pos (by unfold CLICK_SUPPRESS_MS; linarith)]
  · intro hge hseq hdib p hsv
    rw [if_neg (by unfold CLICK_SUPPRESS_MS; intro hc; linarith),
        if_neg (by push_neg; exact ⟨hseq, by simp [hdib]⟩), hsv]

/-- C2 witness: a click 1 second (= 1000 ms) after capture, in scope,
fresh, with a succeeding sink, is accepted and saved. -/
theorem click_suppression_window_witness :
    click_handler ok_env ok_snap = .ok (.saved "screenshot.png") :=
  (click_suppression_window ok_env ok_snap rfl rfl rfl
      (Or.inl (by decide))).2.2 (by norm_num [ok_env, ok_snap]) rfl rfl
    "screenshot.png" rfl

/-- C3: a click that reaches the freshness gate is rejected — no save
and no sink call — whenever the clipboard's current sequence token
differs from the snapshot token or image data is no longer available;
conversely a save (successful or failing) happens only when the token
still matches and image data is present. -/
theorem click_freshness_gate (env : ClickEnv) (snap : Snapshot)
    (hbe : env.isButtonEvent = true)
    (hdown : env.eventType = "down") (hleft : env.button = "left")
    (hscope : foreground_is_vscode env.ws = true ∨
              window_at_point_is_vscode env.ws env.pos.1 env.pos.2 = true)
    (hsupp : ¬ (env.now - snap.last_snip_ts) * 1000 ≤ CLICK_SUPPRESS_MS) :
    ((env.clipSeq ≠ snap.last_snip_seq ∨ env.dibAvailable = false) →
       click_handler env snap = .ok .rejectedFreshness) ∧
    (∀ p, click_handler env snap = .ok (.saved p) →
       env.clipSeq = snap.last_snip_seq ∧ env.dibAvailable = true) ∧
    (∀ e, click_handler env snap = .error e →
       env.clipSeq = snap.last_snip_seq ∧ env.dibAvailable = true) := by
  have h := click_handler_after_gates env snap hbe hdown hleft hscope
  rw [h, if_neg hsupp]
  refine ⟨fun hf => by rw [if_pos hf], ?_, ?_⟩
  · intro p hres
    by_cases hf : env.clipSeq ≠ snap.last_snip_seq ∨ env.dibAvailable = false
    · rw [if_pos hf] at hres
      exact absurd hres (by simp)
    · push_neg at hf
      exact ⟨hf.1, by simpa using hf.2⟩
  · intro e hres
    by_cases hf : env.clipSeq ≠ snap.last_snip_seq ∨ env.dibAvailable = false
    · rw [if_pos hf] at hres
      exact absurd hres (by simp)
    · push_neg at hf
      exact ⟨hf.1, by simpa using hf.2⟩

/-- C3 witness: a click whose live clipboard sequence (6) differs from
the snapshot token (5) is rejected by the freshness gate. -/
theorem click_freshness_gate_witness :
    click_handler stale_env ok_snap = .ok .rejectedFreshness :=
  (click_freshness_gate stale_env ok_snap rfl rfl rfl
      (Or.inl (by decide))
      (by norm_num [stale_env, ok_env, ok_snap, CLICK_SUPPRESS_MS])).1
    (Or.inl (by decide))

/-- C4: a left-button down click where neither the foreground window
nor the window under the pointer belongs to VS Code is rejected by the
scope gate, for every clipboard and snapshot state; if either condition
holds, the scope gate passes (the handler never answers a scope
rejection). -/
theorem click_scope_gate (env : ClickEnv) (snap : Snapshot)
    (hbe : env.isButtonEvent = true)
    (hdown : env.eventType = "down") (hleft : env.button = "left") :
    ((foreground_is_vscode env.ws = false ∧
      window_at_point_is_vscode env.ws env.pos.1 env.pos.2 = false) →
       click_handler env snap = .ok .rejectedScope) ∧
    ((foreground_is_vscode env.ws = true ∨
      window_at_point_is_vscode env.ws env.pos.1 env.pos.2 = true) →
       click_handler env snap ≠ .ok .rejectedScope) := by
  constructor
  · rintro ⟨h1, h2⟩
    unfold click_handler
    rw [if_neg (by simp [hbe]), if_neg (by simp [hdown, hleft]),
        if_pos (by simp [h1, h2])]
  · intro hscope
    rw [click_handler_after_gates env snap hbe hdown hleft hscope]
    by_cases hs : (env.now - snap.last_snip_ts) * 1000 ≤ CLICK_SUPPRESS_MS
    · rw [if_pos hs]; simp
    · rw [if_neg hs]
      by_cases hf : env.clipSeq ≠ snap.last_snip_seq ∨ env.dibAvailable = false
      · rw [if_pos hf]; simp
      · rw [if_neg hf]
        cases hsv : env.save_image snap.last_snip_bytes <;> simp

/-- C4 witness: a click inside a window owned by `explorer.exe`, with
`explorer.exe` also foreground, is rejected by the scope gate. -/
theorem click_scope_gate_witness :
    click_handler outside_env ok_snap = .ok .rejectedScope :=
  (click_scope_gate outside_env ok_snap rfl rfl rfl).1 ⟨by decide, by decide⟩

/-- C5 counterexample: the unsupported-OS path and the lock-failure
path both exit with status 1 — the two statuses are not distinct. -/
theorem startup_exit_codes_equal :
    exit_code (program_startup false true) = some 1 ∧
    exit_code (program_startup true false) = some 1 ∧
    exit_code (program_startup true false) = exit_code (program_startup false true) :=
  ⟨rfl, rfl, rfl⟩

/-- C5 amended: both failure paths print a message and exit with the
non-zero status 1; the two statuses are equal, not distinct. -/
theorem startup_failures_print_and_exit_nonzero :
    program_startup false true =
      [.mkdirSaveDir, .printMsg "Windows only.", .exitProcess 1] ∧
    program_startup true false =
      [.mkdirSaveDir, .acquireLockAttempt,
       .printMsg "🚫 Another instance is already running. Shutting down.",
       .exitProcess 1] ∧
    exit_code (program_startup false true) = some 1 ∧
    exit_code (program_startup true false) = some 1 ∧
    (1 : Nat) ≠ 0 :=
  ⟨rfl, rfl, rfl, rfl, by decide⟩

/-- C6 counterexample: with every gate passing and a sink that raises
on a corrupt payload, the exception is the handler's own outcome — it
escapes the click handler, which installs no protection around the
save call. -/
theorem click_save_failure_escapes :
    click_handler err_env ok_snap = .error "corrupt payload" := by
  have h1 : foreground_is_vscode vscode_ws = true := by decide
  norm_num [click_handler, err_env, ok_env, ok_snap, CLICK_SUPPRESS_MS, h1]

/-- C6 amended: a persistence-sink failure during one accepted click
propagates out of the click handler as an uncaught exception carrying
the sink's error; the handler performs no error handling of its own.
It mutates no shared state, so the poller is unaffected; containment of
the escaped exception is left to the external input-hook machinery. -/
theorem click_save_failure_propagates (env : ClickEnv) (snap : Snapshot)
    (hbe : env.isButtonEvent = true)
    (hdown : env.eventType = "down") (hleft : env.button = "left")
    (hscope : foreground_is_vscode env.ws = true ∨
              window_at_point_is_vscode env.ws env.pos.1 env.pos.2 = true)
    (hsupp : ¬ (env.now - snap.last_snip_ts) * 1000 ≤ CLICK_SUPPRESS_MS)
    (hseq : env.clipSeq = snap.last_snip_seq) (hdib : env.dibAvailable = true)
    (e : String) (hsv : env.save_image snap.last_snip_bytes = .error e) :
    click_handler env snap = .error e := by
  rw [click_handler_after_gates env snap hbe hdown hleft hscope, if_neg hsupp,
      if_neg (by push_neg; exact ⟨hseq, by simp [hdib]⟩), hsv]

/-- C6 witness: a concrete accepted click whose sink raises on a
corrupt payload makes the handler itself produce that error. -/
theorem click_save_failure_propagates_witness :
    click_handler err_env ok_snap = .error "corrupt payload" :=
  click_save_failure_propagates err_env ok_snap rfl rfl rfl (Or.inl (by decide))
    (by norm_num [err_env, ok_env, ok_snap, CLICK_SUPPRESS_MS]) rfl rfl
    "corrupt payload" rfl

/-- C7: on every poller iteration that observes a changed sequence
token, the remembered token is updated to the new value even when the
image read fails; the snapshot store is updated only when image data is
present and the read succeeds (and then to the freshly read triple);
and any later iteration observing the same token leaves the state
unchanged and attempts no read, so a change is never reprocessed. -/
theorem clip_monitor_token_update (env : ClipEnv) (now : ℚ) (st : PollerState)
    (hch : env.seq ≠ st.seq_prev) :
    (clip_monitor_step env now st).seq_prev = env.seq ∧
    ((clip_monitor_step env now st).store ≠ st.store →
       env.dibAvailable = true ∧ ∃ d, env.readResult = some d ∧ d ≠ [] ∧
         (clip_monitor_step env now st).store = ⟨now, env.seq, d⟩) ∧
    (∀ (env2 : ClipEnv) (now2 : ℚ), env2.seq = env.seq →
       clip_monitor_step env2 now2 (clip_monitor_step env now st) =
         clip_monitor_step env now st ∧
       clip_monitor_attempts_read env2 (clip_monitor_step env now st) = false) := by
  obtain ⟨es, ed, er⟩ := env
  have base : clip_monitor_step ⟨es, ed, er⟩ now st = ⟨es, st.store⟩ →
      (clip_monitor_step ⟨es, ed, er⟩ now st).seq_prev = (⟨es, ed, er⟩ : ClipEnv).seq ∧
      ((clip_monitor_step ⟨es, ed, er⟩ now st).store ≠ st.store →
         (⟨es, ed, er⟩ : ClipEnv).dibAvailable = true ∧
         ∃ d, (⟨es, ed, er⟩ : ClipEnv).readResult = some d ∧ d ≠ [] ∧
           (clip_monitor_step ⟨es, ed, er⟩ now st).store =
             ⟨now, (⟨es, ed, er⟩ : ClipEnv).seq, d⟩) ∧
      (∀ (env2 : ClipEnv) (now2 : ℚ), env2.seq = (⟨es, ed, er⟩ : ClipEnv).seq →
         clip_monitor_step env2 now2 (clip_monitor_step ⟨es, ed, er⟩ now st) =
           clip_monitor_step ⟨es, ed, er⟩ now st ∧
         clip_monitor_attempts_read env2 (clip_monitor_step ⟨es, ed, er⟩ now st) = false) := by
    intro hstep
    rw [hstep]
    exact ⟨rfl, fun hne => absurd rfl hne,
           fun env2 now2 h2 => clip_monitor_step_unchanged env2 now2 _ h2⟩
  cases ed with
  | false => exact base (by simp [clip_monitor_step_eq, hch])
  | true =>
    cases er with
    | none => exact base (by simp [clip_monitor_step_eq, hch])
    | some d =>
      by_cases hd : d ≠ []
      · have hstep : clip_monitor_step ⟨es, true, some d⟩ now st =
            ⟨es, ⟨now, es, d⟩⟩ := by
          simp [clip_monitor_step_eq, hch, hd]
        rw [hstep]
        exact ⟨rfl, fun _ => ⟨rfl, d, rfl, hd, rfl⟩,
               fun env2 now2 h2 => clip_monitor_step_unchanged env2 now2 _ h2⟩
      · exact base (by simp [clip_monitor_step_eq, hch, hd])

/-- C7 witness: a change from remembered token 1 to observed token 2
with no image data available still updates the remembered token to 2. -/
theorem clip_monitor_token_update_witness :
    (2 : Nat) ≠ 1 ∧
    (clip_monitor_step ⟨2, false, none⟩ 3 ⟨1, initialSnapshot⟩).seq_prev = 2 :=
  ⟨by decide,
   (clip_monitor_token_update ⟨2, false, none⟩ 3 ⟨1, initialSnapshot⟩ (by decide)).1⟩

/-- C8: every failure while resolving a window or a process — no
foreground window, no window under the pointer, or a raised
`psutil.Error` from the process lookup — makes the classifier answer
`false`; the operations are total functions, so no exception reaches
the caller. -/
theorem classifier_failure_yields_false (ws : WindowSystem) (x y : Int) (e : Unit) :
    pid_is_vscode (.error e) = false ∧
    (ws.foregroundWindow = 0 → foreground_is_vscode ws = false) ∧
    (ws.processName (ws.windowPid ws.foregroundWindow) = .error e →
       foreground_is_vscode ws = false) ∧
    (ws.windowFromPoint x y = 0 → window_at_point_is_vscode ws x y = false) ∧
    (ws.processName (ws.windowPid (ws.windowFromPoint x y)) = .error e →
       window_at_point_is_vscode ws x y = false) := by
  refine ⟨rfl, ?_, ?_, ?_, ?_⟩
  · intro h
    unfold foreground_is_vscode
    rw [if_pos h]
  · intro h
    unfold foreground_is_vscode
    by_cases h0 : ws.foregroundWindow = 0
    · rw [if_pos h0]
    · rw [if_neg h0, h]
      exact rfl
  · intro h
    unfold window_at_point_is_vscode
    rw [if_pos h]
  · intro h
    unfold window_at_point_is_vscode
    by_cases h0 : ws.windowFromPoint x y = 0
    · rw [if_pos h0]
    · rw [if_neg h0, h]
      exact rfl

/-- C8 witness: with no resolvable windows and raising process lookups,
both classifier entry points answer `false`. -/
theorem classifier_failure_yields_false_witness :
    foreground_is_vscode failing_ws = false ∧
    window_at_point_is_vscode failing_ws 5 6 = false :=
  ⟨(classifier_failure_yields_false failing_ws 5 6 ()).2.1 rfl,
   (classifier_failure_yields_false failing_ws 5 6 ()).2.2.2.1 rfl⟩

/-- C9 counterexample: started on a non-Windows platform, the program
still creates the save directory — the `SAVE_DIR.mkdir` call runs at
module import, before the platform check in `main`. -/
theorem unsupported_os_creates_save_dir :
    Effect.mkdirSaveDir ∈ program_startup false true := by decide

/-- C9 amended: on an unsupported OS the program prints the message and
exits with non-zero status 1, attempting no lock acquisition and
starting neither the poller thread nor the mouse hook — but the save
directory has already been created at module import, before the check. -/
theorem unsupported_os_startup (lock : Bool) :
    program_startup false lock =
      [.mkdirSaveDir, .printMsg "Windows only.", .exitProcess 1] ∧
    exit_code (program_startup false lock) = some 1 ∧
    Effect.acquireLockAttempt ∉ program_startup false lock ∧
    Effect.startPollerThread ∉ program_startup false lock ∧
    Effect.hookMouse ∉ program_startup false lock := by
  cases lock <;> exact ⟨rfl, rfl, by decide, by decide, by decide⟩

/-- C10: the release operation of the single-instance gate is
idempotent — releasing an unheld lock is a safe no-op with no `close()`
call, and releasing twice leaves the same state as releasing once, the
second call closing nothing. -/
theorem release_lock_idempotent (s : Option Nat) :
    release_lock none = (none, false) ∧
    (release_lock (release_lock s).1).1 = (release_lock s).1 ∧
    (release_lock (release_lock s).1).2 = false := by
  cases s <;> exact ⟨rfl, rfl, rfl⟩

end SnipHelper
